import Mathlib

/-!
Shallow embedding of the gopushbullet client library (gopushbullet.go)
and proofs of the specification claims about it.

Modelling conventions:
  * Go strings are Lean `String`s; Go byte values are `Nat` (< 256).
  * JSON documents are the inductive `Json`; a raw HTTP body is `Bytes`,
    which is either a well-formed JSON document or malformed text.
  * The `http.Client` transport handle is an oracle `Transport` mapping the
    request the library builds to either a transport failure or a response
    (status code plus body).  Every endpoint model also reports the list of
    HTTP requests it handed to the transport, so that claims of the form
    "no network call is issued" are statable.
  * Go errors are `Option String` (`none` = nil error); a nil-pointer
    dereference panic is modelled by the `Outcome.panicked` constructor.
  * `float32` fields (`created`, `modified`) are modelled as `Int`; no claim
    exercises non-integral values.
-/

namespace Pushbullet

/-- JSON values, as produced and consumed by Go's encoding/json on the
shapes this library uses. Object fields are an ordered association list,
numbers are integers (see module comment on float32). -/
inductive Json where
  | null : Json
  | bool : Bool → Json
  | num : Int → Json
  | str : String → Json
  | arr : List Json → Json
  | obj : List (String × Json) → Json
deriving Repr

/-- Raw response-body bytes: either bytes that parse as a JSON document or
bytes that are not valid JSON. -/
inductive Bytes where
  | json : Json → Bytes
  | malformed : String → Bytes
deriving Repr

/-- errorBody mirrors the inner struct of the error envelope
(gopushbullet.go lines 25-29): message, type and cat strings. -/
structure errorBody where
  Message : String
  «Type» : String
  Cat : String
deriving Repr, DecidableEq

/-- Error mirrors the error envelope struct (lines 21-23): one field
ErrorBody under the JSON key "error". -/
structure Error where
  ErrorBody : errorBody
deriving Repr, DecidableEq

/-- Zero value of the envelope, as produced by new(Error) / the Go literal
Error\x7b\x7d. -/
def zeroError : Error := ⟨⟨"", "", ""⟩⟩

/-- Error.String (lines 32-40): "Invalid Request: m" when the type field is
invalid_request, otherwise "Server Error: m". -/
def Error.display (e : Error) : String :=
  let t := if e.ErrorBody.«Type» = "invalid_request" then "Invalid Request" else "Server Error"
  t ++ ": " ++ e.ErrorBody.Message

/-- Message of the Go runtime panic raised by dereferencing a nil pointer,
as happens in Error.String when the receiver is nil. -/
def nilDerefMsg : String := "runtime error: invalid memory address or nil pointer dereference"

/-- Calling the String method through a possibly-nil pointer receiver
(Go allows the call; the body dereferences the receiver, so a nil receiver
panics). -/
def stringOnPtr : Option Error → Except String String
  | none => .error nilDerefMsg
  | some e => .ok e.display

/-- PushMessage (lines 43-77). The ID field's struct tag in the source is
malformed, so encoding/json falls back to the field name "ID" as its key.
Items is a []string; a zero (nil) slice marshals as JSON null.
Created/Modified are float32 in the source, modelled as Int. -/
structure PushMessage where
  ID : String
  DeviceID : String
  Email : String
  ChannelTag : String
  ClientID : String
  «Type» : String
  Title : String
  Body : String
  URL : String
  Name : String
  Address : String
  Items : List String
  FileName : String
  FileType : String
  FileURL : String
  SourceDeviceID : String
  Created : Int
  Modified : Int
  Active : Bool
  Dismissed : Bool
  SenderID : String
  SenderEmail : String
  SenderEmailNormalized : String
  ReceiverID : String
  ReceiverEmail : String
  ReceiverEmailNormalized : String
deriving Repr, DecidableEq

/-- Zero value of PushMessage, the starting point of every Go literal
var p = PushMessage\x7b...\x7d. -/
def pushZero : PushMessage :=
  { ID := "", DeviceID := "", Email := "", ChannelTag := "", ClientID := ""
    «Type» := "", Title := "", Body := "", URL := "", Name := "", Address := ""
    Items := [], FileName := "", FileType := "", FileURL := "", SourceDeviceID := ""
    Created := 0, Modified := 0, Active := false, Dismissed := false
    SenderID := "", SenderEmail := "", SenderEmailNormalized := ""
    ReceiverID := "", ReceiverEmail := "", ReceiverEmailNormalized := "" }

/-- Item (lines 90-93): a checklist item. -/
structure Item where
  Text : String
  Checked : Bool
deriving Repr, DecidableEq

/-- ItemsList (lines 85-87). Its single field `items` is unexported
(lower-case) in the Go source; encoding/json ignores unexported fields. -/
structure ItemsList where
  items : List Item
deriving Repr, DecidableEq

/-- Marshal of a []string value: a nil (zero) slice marshals as null,
otherwise as an array of strings. PushMessage literals set Items either
from a caller slice or leave it nil; the model identifies empty with nil. -/
def encodeStrList : List String → Json
  | [] => Json.null
  | xs => Json.arr (xs.map Json.str)

/-- json.Marshal of a PushMessage: every field is emitted (no omitempty
tags), in struct declaration order, under its json tag (field name "ID" for
the malformed first tag). -/
def encodePushMessage (p : PushMessage) : Json :=
  Json.obj
    [ ("ID", Json.str p.ID)
    , ("device_iden", Json.str p.DeviceID)
    , ("email", Json.str p.Email)
    , ("channel_tag", Json.str p.ChannelTag)
    , ("client_iden", Json.str p.ClientID)
    , ("type", Json.str p.«Type»)
    , ("title", Json.str p.Title)
    , ("body", Json.str p.Body)
    , ("url", Json.str p.URL)
    , ("name", Json.str p.Name)
    , ("address", Json.str p.Address)
    , ("items", encodeStrList p.Items)
    , ("file_name", Json.str p.FileName)
    , ("file_type", Json.str p.FileType)
    , ("file_url", Json.str p.FileURL)
    , ("source_device_iden", Json.str p.SourceDeviceID)
    , ("created", Json.num p.Created)
    , ("modified", Json.num p.Modified)
    , ("active", Json.bool p.Active)
    , ("dismissed", Json.bool p.Dismissed)
    , ("sender_iden", Json.str p.SenderID)
    , ("sender_email", Json.str p.SenderEmail)
    , ("sender_email_normalized", Json.str p.SenderEmailNormalized)
    , ("receiver_iden", Json.str p.ReceiverID)
    , ("receiver_email", Json.str p.ReceiverEmail)
    , ("receiver_email_normalized", Json.str p.ReceiverEmailNormalized) ]

/-- json.Marshal of an ItemsList: the only field is unexported, so the
encoder sees no fields at all and the result is the empty object,
whatever the items are. -/
def encodeItemsList (_ : ItemsList) : Json := Json.obj []

/-- Lookup of a key in a decoded JSON object; with duplicate keys Go's
decoder lets the last occurrence win. -/
def jGet (fs : List (String × Json)) (k : String) : Option Json :=
  (fs.reverse.find? (fun kv => kv.1 = k)).map (fun kv => kv.2)

/-- Unmarshal of a string-typed struct field: an absent key or a null
leaves the zero value; a present non-string value is a type error. -/
def getStr (fs : List (String × Json)) (k : String) : Except String String :=
  match jGet fs k with
  | none => .ok ""
  | some Json.null => .ok ""
  | some (Json.str s) => .ok s
  | some _ => .error ("json: cannot unmarshal value into string field " ++ k)

/-- Unmarshal of a numeric struct field (see module comment on float32). -/
def getNum (fs : List (String × Json)) (k : String) : Except String Int :=
  match jGet fs k with
  | none => .ok 0
  | some Json.null => .ok 0
  | some (Json.num n) => .ok n
  | some _ => .error ("json: cannot unmarshal value into numeric field " ++ k)

/-- Unmarshal of a bool struct field. -/
def getBool (fs : List (String × Json)) (k : String) : Except String Bool :=
  match jGet fs k with
  | none => .ok false
  | some Json.null => .ok false
  | some (Json.bool b) => .ok b
  | some _ => .error ("json: cannot unmarshal value into bool field " ++ k)

/-- Unmarshal one element of a []string. -/
def getStrElem : Json → Except String String
  | Json.str s => .ok s
  | _ => .error "json: cannot unmarshal value into string element"

/-- Unmarshal of a []string struct field: null or absent leaves the nil
slice; an array must consist of strings. -/
def getStrList (fs : List (String × Json)) (k : String) : Except String (List String) :=
  match jGet fs k with
  | none => .ok []
  | some Json.null => .ok []
  | some (Json.arr xs) => xs.mapM getStrElem
  | some _ => .error ("json: cannot unmarshal value into list field " ++ k)

/-- json.Unmarshal of a JSON document into a PushMessage: a null document
leaves the zero value, an object is decoded field by field (unknown keys
ignored, absent keys left at zero), any other document is a type error. -/
def decodePushMessage : Json → Except String PushMessage
  | Json.null => .ok pushZero
  | Json.obj fs => do
    let id ← getStr fs "ID"
    let dev ← getStr fs "device_iden"
    let email ← getStr fs "email"
    let chan ← getStr fs "channel_tag"
    let cli ← getStr fs "client_iden"
    let ty ← getStr fs "type"
    let title ← getStr fs "title"
    let body ← getStr fs "body"
    let url ← getStr fs "url"
    let name ← getStr fs "name"
    let addr ← getStr fs "address"
    let items ← getStrList fs "items"
    let fn ← getStr fs "file_name"
    let ft ← getStr fs "file_type"
    let fu ← getStr fs "file_url"
    let sdev ← getStr fs "source_device_iden"
    let created ← getNum fs "created"
    let modified ← getNum fs "modified"
    let active ← getBool fs "active"
    let dismissed ← getBool fs "dismissed"
    let sid ← getStr fs "sender_iden"
    let semail ← getStr fs "sender_email"
    let semailn ← getStr fs "sender_email_normalized"
    let rid ← getStr fs "receiver_iden"
    let remail ← getStr fs "receiver_email"
    let remailn ← getStr fs "receiver_email_normalized"
    return { ID := id, DeviceID := dev, Email := email, ChannelTag := chan, ClientID := cli
             «Type» := ty, Title := title, Body := body, URL := url, Name := name, Address := addr
             Items := items, FileName := fn, FileType := ft, FileURL := fu, SourceDeviceID := sdev
             Created := created, Modified := modified, Active := active, Dismissed := dismissed
             SenderID := sid, SenderEmail := semail, SenderEmailNormalized := semailn
             ReceiverID := rid, ReceiverEmail := remail, ReceiverEmailNormalized := remailn }
  | _ => .error "json: cannot unmarshal value into PushMessage"

/-- Standard base64 alphabet used by base64.StdEncoding. -/
def base64Table : List Char :=
  "ABCDEFGHIJKLMNOPQRSTUVWXYZabcdefghijklmnopqrstuvwxyz0123456789+/".toList

/-- Character of the base64 alphabet at a sextet value. -/
def b64char (n : Nat) : Char := base64Table.getD n 'A'

/-- base64.StdEncoding.EncodeToString over a list of byte values, with the
usual padding of a trailing one- or two-byte group. -/
def base64Encode : List Nat → String
  | [] => ""
  | [a] => String.mk [b64char (a / 4), b64char (a % 4 * 16), '=', '=']
  | [a, b] => String.mk [b64char (a / 4), b64char (a % 4 * 16 + b / 16), b64char (b % 16 * 4), '=']
  | a :: b :: d :: rest =>
    String.mk [b64char (a / 4), b64char (a % 4 * 16 + b / 16),
               b64char (b % 16 * 4 + d / 64), b64char (d % 64)] ++ base64Encode rest

/-- UTF-8 encoding of one code point as byte values. -/
def utf8Bytes (c : Nat) : List Nat :=
  if c < 128 then [c]
  else if c < 2048 then [192 + c / 64, 128 + c % 64]
  else if c < 65536 then [224 + c / 4096, 128 + c / 64 % 64, 128 + c % 64]
  else [240 + c / 262144, 128 + c / 4096 % 64, 128 + c / 64 % 64, 128 + c % 64]

/-- Byte values of a Go string (UTF-8). -/
def strBytes (s : String) : List Nat := s.toList.flatMap (fun ch => utf8Bytes ch.toNat)

/-- Body of an outgoing HTTP request: empty (nil payload), marshalled JSON
bytes, or url.Values form data in the order the code Adds the keys. -/
inductive RequestBody where
  | empty : RequestBody
  | jsonData : Json → RequestBody
  | form : List (String × String) → RequestBody
deriving Repr

/-- An HTTP request as handed to the transport: method, full URL, headers
in the order they are added, and body. -/
structure Request where
  method : String
  url : String
  headers : List (String × String)
  body : RequestBody
deriving Repr

/-- Outcome of handing one request to the transport: a transport-level
failure (DNS, refused connection, ...) or a response with a status code
and body bytes. -/
inductive TransportOutcome where
  | failure : String → TransportOutcome
  | response : Nat → Bytes → TransportOutcome
deriving Repr

/-- The http.Client handle, modelled as an oracle from the request the
library builds to the transport outcome. -/
def Transport := Request → TransportOutcome

/-- Client (lines 195-199): API key and base URL; the HTTPClient handle is
the separate Transport oracle. -/
structure Client where
  APIKey : String
  BaseURL : String
deriving Repr, DecidableEq

/-- ClientWithKey (lines 202-208). -/
def ClientWithKey (key : String) : Client :=
  { APIKey := key, BaseURL := "https://api.pushbullet.com/v2/" }

/-- Unmarshal of the error-body fields of the envelope from a decoded
object; a failed field is left at its zero value and the first type error
(in struct order; document order is not tracked) is reported. -/
def unmarshalErrorBody (fs : List (String × Json)) : errorBody × Option String :=
  let m := getStr fs "message"
  let t := getStr fs "type"
  let c := getStr fs "cat"
  ({ Message := (m.toOption).getD "", «Type» := (t.toOption).getD "", Cat := (c.toOption).getD "" },
   match m, t, c with
   | .error e, _, _ => some e
   | _, .error e, _ => some e
   | _, _, .error e => some e
   | _, _, _ => none)

/-- json.Unmarshal of the response body through the pointer-to-pointer
&apiError (apiError starts as a pointer to the zero envelope): malformed
bytes or a non-object, non-null document are a decode error that leaves the
zero envelope; the document null sets the pointer itself to nil; an object
is decoded into the envelope, the inner "error" value again being an
object, null, or a type error. Returns the pointer value after the call
and the decode error, if any. -/
def unmarshalErrorPtr : Bytes → Option Error × Option String
  | Bytes.malformed s => (some zeroError, some ("invalid character in response body: " ++ s))
  | Bytes.json Json.null => (none, none)
  | Bytes.json (Json.obj fs) =>
    match jGet fs "error" with
    | none => (some zeroError, none)
    | some Json.null => (some zeroError, none)
    | some (Json.obj inner) =>
      let (eb, derr) := unmarshalErrorBody inner
      (some ⟨eb⟩, derr)
    | some _ => (some zeroError, some "json: cannot unmarshal value into the error envelope")
  | Bytes.json _ => (some zeroError, some "json: cannot unmarshal value into the error envelope")

/-- Result triple of makeCall, plus the request it handed to the transport
(none when it returned before sending one). -/
structure MakeCallResult where
  request : Option Request
  responseBody : Option Bytes
  apiError : Option Error
  err : Option String
deriving Repr

/-- The request makeCall builds (lines 615-620): method, BaseURL+call, the
Basic auth header from the base64 of key plus ":", a JSON content type,
and the marshalled payload (empty when data is nil). -/
def Client.buildRequest (c : Client) (method call : String) (data : Option Json) : Request :=
  { method := method
    url := c.BaseURL ++ call
    headers := [("Authorization", "Basic " ++ base64Encode (strBytes (c.APIKey ++ ":"))),
                ("Content-Type", "application/json")]
    body := match data with
            | none => RequestBody.empty
            | some v => RequestBody.jsonData v }

/-- makeCall (lines 599-644): reject an empty API key before any network
I/O; marshal the payload (total on the Json payloads the endpoints build);
send the request; on a transport failure return that error; on status 200
return the body bytes; on any other status unmarshal the body as the error
envelope, returning the decode error if the unmarshal fails and otherwise
a "Status code: n" error alongside the decoded envelope. -/
def Client.makeCall (c : Client) (tr : Transport) (method call : String) (data : Option Json) :
    MakeCallResult :=
  if c.APIKey.length = 0 then
    { request := none, responseBody := none, apiError := none,
      err := some "Error: API key required." }
  else
    let req := c.buildRequest method call data
    match tr req with
    | TransportOutcome.failure msg =>
      { request := some req, responseBody := none, apiError := none, err := some msg }
    | TransportOutcome.response status body =>
      if status ≠ 200 then
        let (oe, derr) := unmarshalErrorPtr body
        match derr with
        | some m => { request := some req, responseBody := some body, apiError := oe, err := some m }
        | none => { request := some req, responseBody := some body, apiError := oe,
                    err := some ("Status code: " ++ toString status) }
      else
        { request := some req, responseBody := some body, apiError := none, err := none }

/-- Outcome of one endpoint call as seen by the caller: a returned value,
a returned error, or a runtime panic that escapes the method. -/
inductive Outcome (α : Type) where
  | ok : α → Outcome α
  | error : String → Outcome α
  | panicked : String → Outcome α
deriving Repr

/-- Result of one endpoint call: the HTTP requests handed to the transport
during the call, and the outcome. -/
structure EndpointResult (α : Type) where
  requests : List Request
  result : Outcome α
deriving Repr

/-- Outcome of the logging-and-return error path shared by the endpoints
that pass apiError.String() to log.Println: a nil envelope pointer panics
inside the log call, otherwise the dispatcher error is returned. -/
def logStringPath (r : MakeCallResult) : Outcome Unit :=
  match r.err with
  | none => Outcome.ok ()
  | some e =>
    match stringOnPtr r.apiError with
    | Except.error pm => Outcome.panicked pm
    | Except.ok _ => Outcome.error e

/-- SendNoteToTarget payload construction (lines 232-251): a note push with
the selector switch on the target-type keyword; an unrecognized keyword is
the invalid-target error, "all" adds no selector. -/
def notePayload (targetType target title body : String) : Except String PushMessage :=
  let p := { pushZero with «Type» := "note", Title := title, Body := body }
  if targetType = "device" then .ok { p with DeviceID := target }
  else if targetType = "email" then .ok { p with Email := target }
  else if targetType = "channel" then .ok { p with ChannelTag := target }
  else if targetType = "client" then .ok { p with ClientID := target }
  else if targetType ≠ "all" then .error "Invalid target type"
  else .ok p

/-- SendLinkToTarget payload construction (lines 269-289). -/
def linkPayload (targetType target title body url : String) : Except String PushMessage :=
  let p := { pushZero with «Type» := "link", Title := title, Body := body, URL := url }
  if targetType = "device" then .ok { p with DeviceID := target }
  else if targetType = "email" then .ok { p with Email := target }
  else if targetType = "channel" then .ok { p with ChannelTag := target }
  else if targetType = "client" then .ok { p with ClientID := target }
  else if targetType ≠ "all" then .error "Invalid target type"
  else .ok p

/-- SendAddressToTarget payload construction (lines 307-327). -/
def addressPayload (targetType target title name address : String) : Except String PushMessage :=
  let p := { pushZero with «Type» := "address", Title := title, Name := name, Address := address }
  if targetType = "device" then .ok { p with DeviceID := target }
  else if targetType = "email" then .ok { p with Email := target }
  else if targetType = "channel" then .ok { p with ChannelTag := target }
  else if targetType = "client" then .ok { p with ClientID := target }
  else if targetType ≠ "all" then .error "Invalid target type"
  else .ok p

/-- SendChecklistToTarget payload construction (lines 345-364). -/
def checklistPayload (targetType target title : String) (items : List String) :
    Except String PushMessage :=
  let p := { pushZero with «Type» := "checklist", Title := title, Items := items }
  if targetType = "device" then .ok { p with DeviceID := target }
  else if targetType = "email" then .ok { p with Email := target }
  else if targetType = "channel" then .ok { p with ChannelTag := target }
  else if targetType = "client" then .ok { p with ClientID := target }
  else if targetType ≠ "all" then .error "Invalid target type"
  else .ok p

/-- SendFileToTarget payload construction (lines 382-403); the items
parameter of the Go function is accepted and unused, as in the source. -/
def filePayload (targetType target fileName fileType fileURL body : String)
    (items : List String) : Except String PushMessage :=
  let _ := items
  let p := { pushZero with «Type» := "file", FileName := fileName, FileType := fileType,
                           FileURL := fileURL, Body := body }
  if targetType = "device" then .ok { p with DeviceID := target }
  else if targetType = "email" then .ok { p with Email := target }
  else if targetType = "channel" then .ok { p with ChannelTag := target }
  else if targetType = "client" then .ok { p with ClientID := target }
  else if targetType ≠ "all" then .error "Invalid target type"
  else .ok p

/-- SendNoteToTarget (lines 231-259): build the payload, POST it to
"pushes", and on a dispatcher error log with apiError.String() and return
the error. -/
def Client.SendNoteToTarget (c : Client) (tr : Transport)
    (targetType target title body : String) : EndpointResult Unit :=
  match notePayload targetType target title body with
  | .error e => { requests := [], result := Outcome.error e }
  | .ok p =>
    let r := c.makeCall tr "POST" "pushes" (some (encodePushMessage p))
    { requests := r.request.toList, result := logStringPath r }

/-- SendNote (lines 225-228): the all-devices convenience form. -/
def Client.SendNote (c : Client) (tr : Transport) (title body : String) : EndpointResult Unit :=
  c.SendNoteToTarget tr "all" "" title body

/-- SendLinkToTarget (lines 268-297). -/
def Client.SendLinkToTarget (c : Client) (tr : Transport)
    (targetType target title body url : String) : EndpointResult Unit :=
  match linkPayload targetType target title body url with
  | .error e => { requests := [], result := Outcome.error e }
  | .ok p =>
    let r := c.makeCall tr "POST" "pushes" (some (encodePushMessage p))
    { requests := r.request.toList, result := logStringPath r }

/-- SendLink (lines 262-265). -/
def Client.SendLink (c : Client) (tr : Transport) (title body url : String) :
    EndpointResult Unit :=
  c.SendLinkToTarget tr "all" "" title body url

/-- SendAddress (lines 300-303): the source delegates to SendLinkToTarget,
not SendAddressToTarget, passing title, name, address as the link form's
title, body, url. -/
def Client.SendAddress (c : Client) (tr : Transport) (title name address : String) :
    EndpointResult Unit :=
  c.SendLinkToTarget tr "all" "" title name address

/-- SendAddressToTarget (lines 306-335). -/
def Client.SendAddressToTarget (c : Client) (tr : Transport)
    (targetType target title name address : String) : EndpointResult Unit :=
  match addressPayload targetType target title name address with
  | .error e => { requests := [], result := Outcome.error e }
  | .ok p =>
    let r := c.makeCall tr "POST" "pushes" (some (encodePushMessage p))
    { requests := r.request.toList, result := logStringPath r }

/-- SendChecklistToTarget (lines 344-372). -/
def Client.SendChecklistToTarget (c : Client) (tr : Transport)
    (targetType target title : String) (items : List String) : EndpointResult Unit :=
  match checklistPayload targetType target title items with
  | .error e => { requests := [], result := Outcome.error e }
  | .ok p =>
    let r := c.makeCall tr "POST" "pushes" (some (encodePushMessage p))
    { requests := r.request.toList, result := logStringPath r }

/-- SendChecklist (lines 338-341). -/
def Client.SendChecklist (c : Client) (tr : Transport) (title : String) (items : List String) :
    EndpointResult Unit :=
  c.SendChecklistToTarget tr "all" "" title items

/-- SendFile (lines 375-378): the source delegates to
SendChecklistToTarget, not SendFileToTarget. -/
def Client.SendFile (c : Client) (tr : Transport) (title : String) (items : List String) :
    EndpointResult Unit :=
  c.SendChecklistToTarget tr "all" "" title items

/-- SendFileToTarget (lines 381-411). -/
def Client.SendFileToTarget (c : Client) (tr : Transport)
    (targetType target fileName fileType fileURL body : String) (items : List String) :
    EndpointResult Unit :=
  match filePayload targetType target fileName fileType fileURL body items with
  | .error e => { requests := [], result := Outcome.error e }
  | .ok p =>
    let r := c.makeCall tr "POST" "pushes" (some (encodePushMessage p))
    { requests := r.request.toList, result := logStringPath r }

/-- CreateContact (lines 444-453): a direct HTTPClient.PostForm to
BaseURL+"contacts" with the name and email form values — it does not go
through makeCall, attaches no Authorization header, performs no API-key
check, and ignores the response status. -/
def Client.CreateContact (c : Client) (tr : Transport) (name email : String) :
    EndpointResult Unit :=
  let req : Request :=
    { method := "POST", url := c.BaseURL ++ "contacts",
      headers := [("Content-Type", "application/x-www-form-urlencoded")],
      body := RequestBody.form [("name", name), ("email", email)] }
  match tr req with
  | TransportOutcome.failure msg => { requests := [req], result := Outcome.error msg }
  | TransportOutcome.response _ _ => { requests := [req], result := Outcome.ok () }

/-- UpdateContact (lines 456-464): a direct PostForm to
BaseURL+"contacts/"+contactID, likewise with no API-key check. -/
def Client.UpdateContact (c : Client) (tr : Transport) (contactID name : String) :
    EndpointResult Unit :=
  let req : Request :=
    { method := "POST", url := c.BaseURL ++ "contacts/" ++ contactID,
      headers := [("Content-Type", "application/x-www-form-urlencoded")],
      body := RequestBody.form [("name", name)] }
  match tr req with
  | TransportOutcome.failure msg => { requests := [req], result := Outcome.error msg }
  | TransportOutcome.response _ _ => { requests := [req], result := Outcome.ok () }

/-- DeleteContact (lines 467-474). -/
def Client.DeleteContact (c : Client) (tr : Transport) (contactID : String) :
    EndpointResult Unit :=
  let r := c.makeCall tr "DELETE" ("contacts/" ++ contactID) none
  { requests := r.request.toList, result := logStringPath r }

/-- SubscribeChannel (lines 477-484): a POST to "subscriptions" with a nil
payload; the channel parameter is accepted and never used. -/
def Client.SubscribeChannel (c : Client) (tr : Transport) (channel : String) :
    EndpointResult Unit :=
  let _ := channel
  let r := c.makeCall tr "POST" "subscriptions" none
  { requests := r.request.toList, result := logStringPath r }

/-- UnsubscribeChannel (lines 501-508). -/
def Client.UnsubscribeChannel (c : Client) (tr : Transport) (channelID : String) :
    EndpointResult Unit :=
  let r := c.makeCall tr "DELETE" ("subscriptions/" ++ channelID) none
  { requests := r.request.toList, result := logStringPath r }

/-- DeletePush (lines 569-576): logs the raw apiError pointer (no String()
call), so its error path returns without panicking. -/
def Client.DeletePush (c : Client) (tr : Transport) (pushID : String) : EndpointResult Unit :=
  let r := c.makeCall tr "DELETE" ("pushes/" ++ pushID) none
  { requests := r.request.toList,
    result := match r.err with
              | some e => Outcome.error e
              | none => Outcome.ok () }

/-- DismissPush (lines 579-586): issues a GET, and logs the raw apiError
pointer (no String() call). -/
def Client.DismissPush (c : Client) (tr : Transport) (pushID : String) : EndpointResult Unit :=
  let r := c.makeCall tr "GET" ("pushes/" ++ pushID) none
  { requests := r.request.toList,
    result := match r.err with
              | some e => Outcome.error e
              | none => Outcome.ok () }

/-- UpdateList (lines 589-596): POSTs the marshalled ItemsList to
"pushes/"+pushID; logs the raw apiError pointer (no String() call). -/
def Client.UpdateList (c : Client) (tr : Transport) (pushID : String) (list : ItemsList) :
    EndpointResult Unit :=
  let r := c.makeCall tr "POST" ("pushes/" ++ pushID) (some (encodeItemsList list))
  { requests := r.request.toList,
    result := match r.err with
              | some e => Outcome.error e
              | none => Outcome.ok () }

/-- Onboarding, the anonymous inner struct of Preferences (lines 169-173). -/
structure Onboarding where
  App : Bool
  Friends : Bool
  Extension : Bool
deriving Repr, DecidableEq

/-- Preferences (lines 168-176). -/
structure Preferences where
  Onboarding : Onboarding
  Social : Bool
  Cat : String
deriving Repr, DecidableEq

/-- User (lines 156-165); float32 timestamps modelled as Int as above. -/
structure User where
  ID : String
  Email : String
  EmailNormalized : String
  Created : Int
  Modified : Int
  Name : String
  ImageURL : String
  Preferences : Preferences
deriving Repr, DecidableEq

/-- Unmarshal of the onboarding object. -/
def decodeOnboarding (fs : List (String × Json)) : Except String Onboarding := do
  let app ← getBool fs "app"
  let friends ← getBool fs "friends"
  let ext ← getBool fs "extension"
  return { App := app, Friends := friends, Extension := ext }

/-- Unmarshal of a preferences value: absent or null leaves the zero
value, an object is decoded field by field. -/
def decodePreferences : Json → Except String Preferences
  | Json.null => .ok ⟨⟨false, false, false⟩, false, ""⟩
  | Json.obj fs => do
    let ob ← match jGet fs "onboarding" with
             | none => pure (⟨false, false, false⟩ : Onboarding)
             | some Json.null => pure (⟨false, false, false⟩ : Onboarding)
             | some (Json.obj inner) => decodeOnboarding inner
             | some _ => throw "json: cannot unmarshal value into Onboarding"
    let social ← getBool fs "social"
    let cat ← getStr fs "cat"
    return { Onboarding := ob, Social := social, Cat := cat }
  | _ => .error "json: cannot unmarshal value into Preferences"

/-- json.Unmarshal of a document into a User. -/
def decodeUser : Json → Except String User
  | Json.null => .ok ⟨"", "", "", 0, 0, "", "", ⟨⟨false, false, false⟩, false, ""⟩⟩
  | Json.obj fs => do
    let id ← getStr fs "iden"
    let email ← getStr fs "email"
    let emailn ← getStr fs "email_normalized"
    let created ← getNum fs "created"
    let modified ← getNum fs "modified"
    let name ← getStr fs "name"
    let image ← getStr fs "image_url"
    let prefs ← match jGet fs "preferences" with
                | none => pure (⟨⟨false, false, false⟩, false, ""⟩ : Preferences)
                | some v => decodePreferences v
    return { ID := id, Email := email, EmailNormalized := emailn, Created := created,
             Modified := modified, Name := name, ImageURL := image, Preferences := prefs }
  | _ => .error "json: cannot unmarshal value into User"

/-- json.Unmarshal applied to raw body bytes, for a User result. -/
def decodeUserBytes : Bytes → Except String User
  | Bytes.malformed s => .error ("invalid character in response body: " ++ s)
  | Bytes.json v => decodeUser v

/-- GetUser (lines 211-222): GET "users/me"; a dispatcher error is logged
with apiError.String() (panicking on a nil envelope pointer) and then
returned; a success body is unmarshalled into a User. -/
def Client.GetUser (c : Client) (tr : Transport) : EndpointResult User :=
  let r := c.makeCall tr "GET" "users/me" none
  match r.err with
  | some e =>
    match stringOnPtr r.apiError with
    | Except.error pm => { requests := r.request.toList, result := Outcome.panicked pm }
    | Except.ok _ => { requests := r.request.toList, result := Outcome.error e }
  | none =>
    match r.responseBody with
    | none => { requests := r.request.toList, result := Outcome.error "unexpected end of JSON input" }
    | some b =>
      match decodeUserBytes b with
      | Except.error e => { requests := r.request.toList, result := Outcome.error e }
      | Except.ok u => { requests := r.request.toList, result := Outcome.ok u }

/-- AuthData, the anonymous Data struct of Authorization (lines 184-191). -/
structure AuthData where
  Awsaccesskeyid : String
  Acl : String
  Key : String
  Signature : String
  Policy : String
  ContentType : String
deriving Repr, DecidableEq

/-- Authorization (lines 179-192). -/
structure Authorization where
  FileType : String
  FileName : String
  FileURL : String
  UploadURL : String
  Data : AuthData
deriving Repr, DecidableEq

/-- Unmarshal of the authorization data object. -/
def decodeAuthData (fs : List (String × Json)) : Except String AuthData := do
  let a ← getStr fs "awsaccesskeyid"
  let acl ← getStr fs "acl"
  let k ← getStr fs "key"
  let sig ← getStr fs "signature"
  let pol ← getStr fs "policy"
  let ct ← getStr fs "content-type"
  return { Awsaccesskeyid := a, Acl := acl, Key := k, Signature := sig, Policy := pol,
           ContentType := ct }

/-- json.Unmarshal of raw body bytes into an Authorization. -/
def decodeAuthorization : Bytes → Except String Authorization
  | Bytes.malformed s => .error ("invalid character in response body: " ++ s)
  | Bytes.json Json.null => .ok ⟨"", "", "", "", ⟨"", "", "", "", "", ""⟩⟩
  | Bytes.json (Json.obj fs) => do
    let ft ← getStr fs "file_type"
    let fn ← getStr fs "file_name"
    let fu ← getStr fs "file_url"
    let up ← getStr fs "upload_url"
    let d ← match jGet fs "data" with
            | none => pure (⟨"", "", "", "", "", ""⟩ : AuthData)
            | some Json.null => pure (⟨"", "", "", "", "", ""⟩ : AuthData)
            | some (Json.obj inner) => decodeAuthData inner
            | some _ => throw "json: cannot unmarshal value into AuthData"
    return { FileType := ft, FileName := fn, FileURL := fu, UploadURL := up, Data := d }
  | Bytes.json _ => .error "json: cannot unmarshal value into Authorization"

/-- AuthorizeUpload (lines 522-541): a direct PostForm to
BaseURL+"upload-request" with file_name and file_type form values — no
makeCall, no API-key check, no Authorization header; the response body is
read and unmarshalled into an Authorization whatever the status code. -/
def Client.AuthorizeUpload (c : Client) (tr : Transport) (fileName fileType : String) :
    EndpointResult Authorization :=
  let req : Request :=
    { method := "POST", url := c.BaseURL ++ "upload-request",
      headers := [("Content-Type", "application/x-www-form-urlencoded")],
      body := RequestBody.form [("file_name", fileName), ("file_type", fileType)] }
  match tr req with
  | TransportOutcome.failure msg => { requests := [req], result := Outcome.error msg }
  | TransportOutcome.response _ body =>
    match decodeAuthorization body with
    | Except.error e => { requests := [req], result := Outcome.error e }
    | Except.ok a => { requests := [req], result := Outcome.ok a }

/-! Concrete fixtures used by the claim theorems and witnesses. -/

/-- Transport that answers every request with status 200 and an empty
JSON object, recording nothing. -/
def okTransport : Transport := fun _ => TransportOutcome.response 200 (Bytes.json (Json.obj []))

/-- Body of a well-formed 401 error envelope with message m, type
invalid_request and cat c. -/
def errBody401 : Bytes :=
  Bytes.json (Json.obj [("error", Json.obj
    [("message", Json.str "m"), ("type", Json.str "invalid_request"), ("cat", Json.str "c")])])

/-- Transport that answers every request with status 401 and the error
envelope above. -/
def errTransport : Transport := fun _ => TransportOutcome.response 401 errBody401

/-- A payload-construction result consists of a successfully built push
whose four target-selector fields equal the given quadruple. -/
def selectorQuad (r : Except String PushMessage) (q : String × String × String × String) : Prop :=
  ∃ p, r = Except.ok p ∧ (p.DeviceID, p.Email, p.ChannelTag, p.ClientID) = q

/-! Claim theorems. -/

/-- C5 (confirmed): for an error envelope with message m, the display
string is "Invalid Request: " followed by m exactly when the type field is
invalid_request, and "Server Error: " followed by m for every other type
value. -/
theorem error_display_by_type (m c ty : String) :
    (ty = "invalid_request" → Error.display ⟨⟨m, ty, c⟩⟩ = "Invalid Request: " ++ m) ∧
    (ty ≠ "invalid_request" → Error.display ⟨⟨m, ty, c⟩⟩ = "Server Error: " ++ m) := by
  refine ⟨fun h => ?_, fun h => ?_⟩
  · subst h
    simp [Error.display]
  · simp [Error.display, h]

/-- C5 witness: the two display strings at message "m", types
invalid_request and server. -/
theorem error_display_by_type_witness :
    Error.display ⟨⟨"m", "invalid_request", "c"⟩⟩ = "Invalid Request: " ++ "m" ∧
    Error.display ⟨⟨"m", "server", "c"⟩⟩ = "Server Error: " ++ "m" :=
  ⟨(error_display_by_type "m" "c" "invalid_request").1 rfl,
   (error_display_by_type "m" "c" "server").2 (by decide)⟩

/-- C4 (confirmed): on a non-200 response, when the body unmarshals as the
error envelope the dispatcher returns that envelope together with the
status-code error, and when the unmarshal fails the dispatcher returns the
decode failure itself. -/
theorem makeCall_non200_envelope (c : Client) (tr : Transport)
    (method call : String) (data : Option Json) (status : Nat) (body : Bytes)
    (hK : c.APIKey.length ≠ 0)
    (ht : tr (c.buildRequest method call data) = TransportOutcome.response status body)
    (hs : status ≠ 200) :
    (∀ e, unmarshalErrorPtr body = (some e, none) →
      c.makeCall tr method call data =
        { request := some (c.buildRequest method call data), responseBody := some body,
          apiError := some e, err := some ("Status code: " ++ toString status) }) ∧
    (∀ oe msg, unmarshalErrorPtr body = (oe, some msg) →
      c.makeCall tr method call data =
        { request := some (c.buildRequest method call data), responseBody := some body,
          apiError := oe, err := some msg }) := by
  constructor
  · intro e he
    simp [Client.makeCall, hK, ht, hs, he]
  · intro oe msg hm
    simp [Client.makeCall, hK, ht, hs, hm]

/-- C4 witness: a 401 with a well-formed envelope yields the decoded
envelope and the status-code error. -/
theorem makeCall_non200_envelope_witness :
    (ClientWithKey "apikey").makeCall errTransport "GET" "users/me" none =
      { request := some ((ClientWithKey "apikey").buildRequest "GET" "users/me" none),
        responseBody := some errBody401,
        apiError := some ⟨⟨"m", "invalid_request", "c"⟩⟩,
        err := some ("Status code: " ++ toString 401) } :=
  (makeCall_non200_envelope (ClientWithKey "apikey") errTransport "GET" "users/me" none
    401 errBody401 (by decide) rfl (by decide)).1 ⟨⟨"m", "invalid_request", "c"⟩⟩ rfl

/-- C1 (refuting the claim as stated): with an empty API key, CreateContact
still hands its form request to the transport and returns success — the
form-encoded endpoints bypass the dispatcher and its credential check —
while the dispatcher itself does reject the empty key with the
missing-credential error. -/
theorem createContact_ignores_empty_key :
    ((ClientWithKey "").CreateContact okTransport "Alice" "alice@example.com").requests.length = 1 ∧
    ((ClientWithKey "").CreateContact okTransport "Alice" "alice@example.com").result =
      Outcome.ok () ∧
    ((ClientWithKey "").makeCall okTransport "GET" "users/me" none).err =
      some "Error: API key required." ∧
    ((ClientWithKey "").makeCall okTransport "GET" "users/me" none).request = none :=
  ⟨rfl, rfl, rfl, rfl⟩

/-- C2 (refuting the claim as stated): GetUser on a client with an empty
API key panics — the logging call dereferences the nil envelope pointer
returned by the dispatcher — instead of returning the error value; no
request reaches the transport first. -/
theorem getUser_empty_key_panics :
    ((ClientWithKey "").GetUser okTransport).result = Outcome.panicked nilDerefMsg ∧
    ((ClientWithKey "").GetUser okTransport).requests = [] :=
  ⟨rfl, rfl⟩

/-- C3 (confirmed): for each of the five payload builders, the keyword
device/email/channel/client sets exactly the corresponding selector field
to the target and leaves the other three empty, the keyword all leaves all
four empty, and any other keyword makes each Send*ToTarget method return
the invalid-target error having issued no request. -/
theorem sendToTarget_selector_cases
    (tt target title body url name address fileName fileType fileURL fileBody : String)
    (items : List String) (c : Client) (tr : Transport) :
    (tt = "device" →
      selectorQuad (notePayload tt target title body) (target, "", "", "") ∧
      selectorQuad (linkPayload tt target title body url) (target, "", "", "") ∧
      selectorQuad (addressPayload tt target title name address) (target, "", "", "") ∧
      selectorQuad (checklistPayload tt target title items) (target, "", "", "") ∧
      selectorQuad (filePayload tt target fileName fileType fileURL fileBody items)
        (target, "", "", "")) ∧
    (tt = "email" →
      selectorQuad (notePayload tt target title body) ("", target, "", "") ∧
      selectorQuad (linkPayload tt target title body url) ("", target, "", "") ∧
      selectorQuad (addressPayload tt target title name address) ("", target, "", "") ∧
      selectorQuad (checklistPayload tt target title items) ("", target, "", "") ∧
      selectorQuad (filePayload tt target fileName fileType fileURL fileBody items)
        ("", target, "", "")) ∧
    (tt = "channel" →
      selectorQuad (notePayload tt target title body) ("", "", target, "") ∧
      selectorQuad (linkPayload tt target title body url) ("", "", target, "") ∧
      selectorQuad (addressPayload tt target title name address) ("", "", target, "") ∧
      selectorQuad (checklistPayload tt target title items) ("", "", target, "") ∧
      selectorQuad (filePayload tt target fileName fileType fileURL fileBody items)
        ("", "", target, "")) ∧
    (tt = "client" →
      selectorQuad (notePayload tt target title body) ("", "", "", target) ∧
      selectorQuad (linkPayload tt target title body url) ("", "", "", target) ∧
      selectorQuad (addressPayload tt target title name address) ("", "", "", target) ∧
      selectorQuad (checklistPayload tt target title items) ("", "", "", target) ∧
      selectorQuad (filePayload tt target fileName fileType fileURL fileBody items)
        ("", "", "", target)) ∧
    (tt = "all" →
      selectorQuad (notePayload tt target title body) ("", "", "", "") ∧
      selectorQuad (linkPayload tt target title body url) ("", "", "", "") ∧
      selectorQuad (addressPayload tt target title name address) ("", "", "", "") ∧
      selectorQuad (checklistPayload tt target title items) ("", "", "", "") ∧
      selectorQuad (filePayload tt target fileName fileType fileURL fileBody items)
        ("", "", "", "")) ∧
    (tt ∉ ["device", "email", "channel", "client", "all"] →
      c.SendNoteToTarget tr tt target title body =
        { requests := [], result := Outcome.error "Invalid target type" } ∧
      c.SendLinkToTarget tr tt target title body url =
        { requests := [], result := Outcome.error "Invalid target type" } ∧
      c.SendAddressToTarget tr tt target title name address =
        { requests := [], result := Outcome.error "Invalid target type" } ∧
      c.SendChecklistToTarget tr tt target title items =
        { requests := [], result := Outcome.error "Invalid target type" } ∧
      c.SendFileToTarget tr tt target fileName fileType fileURL fileBody items =
        { requests := [], result := Outcome.error "Invalid target type" }) := by
  refine ⟨fun h => ?_, fun h => ?_, fun h => ?_, fun h => ?_, fun h => ?_, fun h => ?_⟩
  · subst h
    exact ⟨⟨_, rfl, rfl⟩, ⟨_, rfl, rfl⟩, ⟨_, rfl, rfl⟩, ⟨_, rfl, rfl⟩, ⟨_, rfl, rfl⟩⟩
  · subst h
    exact ⟨⟨_, rfl, rfl⟩, ⟨_, rfl, rfl⟩, ⟨_, rfl, rfl⟩, ⟨_, rfl, rfl⟩, ⟨_, rfl, rfl⟩⟩
  · subst h
    exact ⟨⟨_, rfl, rfl⟩, ⟨_, rfl, rfl⟩, ⟨_, rfl, rfl⟩, ⟨_, rfl, rfl⟩, ⟨_, rfl, rfl⟩⟩
  · subst h
    exact ⟨⟨_, rfl, rfl⟩, ⟨_, rfl, rfl⟩, ⟨_, rfl, rfl⟩, ⟨_, rfl, rfl⟩, ⟨_, rfl, rfl⟩⟩
  · subst h
    exact ⟨⟨_, rfl, rfl⟩, ⟨_, rfl, rfl⟩, ⟨_, rfl, rfl⟩, ⟨_, rfl, rfl⟩, ⟨_, rfl, rfl⟩⟩
  · simp only [List.mem_cons, List.not_mem_nil, or_false, not_or] at h
    obtain ⟨h1, h2, h3, h4, h5⟩ := h
    refine ⟨?_, ?_, ?_, ?_, ?_⟩ <;>
      simp [Client.SendNoteToTarget, Client.SendLinkToTarget, Client.SendAddressToTarget,
            Client.SendChecklistToTarget, Client.SendFileToTarget,
            notePayload, linkPayload, addressPayload, checklistPayload, filePayload,
            h1, h2, h3, h4, h5]

/-- C3 witness: at the keyword device the note payload selects exactly the
device field, and at the unrecognized keyword waffles SendNoteToTarget
returns the invalid-target error with no request. -/
theorem sendToTarget_selector_cases_witness :
    selectorQuad (notePayload "device" "d1" "T" "B") ("d1", "", "", "") ∧
    (ClientWithKey "apikey").SendNoteToTarget okTransport "waffles" "bacon" "T" "B" =
      { requests := [], result := Outcome.error "Invalid target type" } :=
  ⟨((sendToTarget_selector_cases "device" "d1" "T" "B" "u" "n" "a" "f" "ft" "fu" "fb" []
      (ClientWithKey "apikey") okTransport).1 rfl).1,
   ((sendToTarget_selector_cases "waffles" "bacon" "T" "B" "u" "n" "a" "f" "ft" "fu" "fb" []
      (ClientWithKey "apikey") okTransport).2.2.2.2.2 (by decide)).1⟩

/-- C6 (refuting the claim as stated): SendAddress delegates to the link
form, so its outgoing push has type link with the name argument in the
body field and the address argument in the url field, rather than the
claimed address-typed push with Name and Address populated. -/
theorem sendAddress_sends_link_payload :
    ((ClientWithKey "apikey").SendAddress okTransport "Build Test" "Place" "123 Main").requests =
      ((ClientWithKey "apikey").SendLinkToTarget okTransport "all" "" "Build Test" "Place"
        "123 Main").requests ∧
    ((ClientWithKey "apikey").SendAddress okTransport "Build Test" "Place"
        "123 Main").requests.map (fun r => r.body) =
      [RequestBody.jsonData (encodePushMessage
        { pushZero with «Type» := "link", Title := "Build Test", Body := "Place",
                        URL := "123 Main" })] ∧
    ({ pushZero with «Type» := "link", Title := "Build Test", Body := "Place",
                     URL := "123 Main" } : PushMessage).«Type» ≠ "address" ∧
    ({ pushZero with «Type» := "link", Title := "Build Test", Body := "Place",
                     URL := "123 Main" } : PushMessage).Name = "" ∧
    ({ pushZero with «Type» := "link", Title := "Build Test", Body := "Place",
                     URL := "123 Main" } : PushMessage).Address = "" :=
  ⟨rfl, rfl, by decide, rfl, rfl⟩

/-- C7 (refuting the claim as stated): SendFile delegates to the checklist
form, so its outgoing push has type checklist with title and items set and
every file-specific field empty, rather than the claimed file-typed push. -/
theorem sendFile_sends_checklist_payload :
    ((ClientWithKey "apikey").SendFile okTransport "Build Test" ["item1"]).requests.map
        (fun r => r.body) =
      [RequestBody.jsonData (encodePushMessage
        { pushZero with «Type» := "checklist", Title := "Build Test", Items := ["item1"] })] ∧
    ({ pushZero with «Type» := "checklist", Title := "Build Test",
                     Items := ["item1"] } : PushMessage).«Type» ≠ "file" ∧
    ({ pushZero with «Type» := "checklist", Title := "Build Test",
                     Items := ["item1"] } : PushMessage).FileName = "" ∧
    ({ pushZero with «Type» := "checklist", Title := "Build Test",
                     Items := ["item1"] } : PushMessage).FileType = "" ∧
    ({ pushZero with «Type» := "checklist", Title := "Build Test",
                     Items := ["item1"] } : PushMessage).FileURL = "" :=
  ⟨rfl, by decide, rfl, rfl, rfl⟩

/-- C8 (refuting the claim as stated): SubscribeChannel never uses its
channel argument — two calls with different channels produce identical
results, and the single request it issues carries an empty body that
identifies no channel. -/
theorem subscribeChannel_ignores_channel :
    (ClientWithKey "apikey").SubscribeChannel okTransport "alpha" =
      (ClientWithKey "apikey").SubscribeChannel okTransport "beta" ∧
    ((ClientWithKey "apikey").SubscribeChannel okTransport "alpha").requests.map
        (fun r => r.body) = [RequestBody.empty] ∧
    ((ClientWithKey "apikey").SubscribeChannel okTransport "alpha").requests.map
        (fun r => r.url) = ["https://api.pushbullet.com/v2/subscriptions"] :=
  ⟨rfl, rfl, rfl⟩

/-- C9 (refuting the claim as stated): the items field of ItemsList is
unexported, so an ItemsList marshals to the empty JSON object whatever its
items, and UpdateList sends byte-identical payloads for a two-item list
and the empty list. -/
theorem updateList_body_ignores_items :
    encodeItemsList ⟨[⟨"item1", false⟩, ⟨"item2", true⟩]⟩ = Json.obj [] ∧
    encodeItemsList ⟨[]⟩ = Json.obj [] ∧
    (ClientWithKey "apikey").UpdateList okTransport "p1" ⟨[⟨"item1", false⟩, ⟨"item2", true⟩]⟩ =
      (ClientWithKey "apikey").UpdateList okTransport "p1" ⟨[]⟩ ∧
    ((ClientWithKey "apikey").UpdateList okTransport "p1"
        ⟨[⟨"item1", false⟩, ⟨"item2", true⟩]⟩).requests.map (fun r => r.url) =
      ["https://api.pushbullet.com/v2/pushes/p1"] :=
  ⟨rfl, rfl, rfl, rfl⟩

/-- C10 (confirmed): encoding the checklist push with title Build Test and
items item1, item2, item3 and decoding the same JSON yields a record whose
Items and Title equal the originals. -/
theorem pushMessage_checklist_roundtrip :
    ∃ q, decodePushMessage (encodePushMessage
        { pushZero with «Type» := "checklist", Title := "Build Test",
                        Items := ["item1", "item2", "item3"] }) = Except.ok q ∧
      q.Items = ["item1", "item2", "item3"] ∧ q.Title = "Build Test" :=
  ⟨{ pushZero with «Type» := "checklist", Title := "Build Test",
                   Items := ["item1", "item2", "item3"] }, rfl, rfl, rfl⟩

end Pushbullet
